import Mathlib

/-!
Shallow embedding of the facility-map skill (`facility_map.py`): query
construction from structured filters, the fixed color palettes, the
per-record color resolution, the grouping of map points into series by
building use, the table-row and summary formatting, and the top-level
skill function with its fetch/render failure handling.
-/

namespace FacilityMap

/-! ### Query builder -/

/-- A filter value as it may arrive from the caller: either a plain scalar
(`isinstance(values, list)` is false) or a list of values. -/
inductive FilterVal where
  | scalar (s : String)
  | listVal (vs : List String)
  deriving DecidableEq

/-- One entry of the `other_filters` argument. `notDict` models an entry that
is not a dict at all; `dict` carries the optional `dim` and `val` keys. -/
inductive FilterItem where
  | notDict
  | dict (dim : Option String) (val : Option FilterVal)
  deriving DecidableEq

/-- The base SQL text built at the top of `facility_map` (fixed projection
with the non-null latitude/longitude predicate). -/
def baseQuery : String :=
  "\n    SELECT\n        BUILDING_NAME,\n        BUILDING_TYPE,\n        BUILDING_USE,\n        CITY,\n        STATE,\n        FULL_ADDRESS,\n        LATITUDE,\n        LONGITUDE,\n        OWN_LEASE,\n        SQUARE_FEET,\n        YEAR_BUILT\n    FROM facility_map\n    WHERE LATITUDE IS NOT NULL AND LONGITUDE IS NOT NULL\n    "

/-- Python `str.upper()`: upper-case every character. -/
def strUpper (s : String) : String := String.mk (s.data.map Char.toUpper)

/-- Python `sep.join xs`. -/
def sepJoin (sep : String) : List String → String
  | [] => ""
  | [s] => s
  | s :: rest => s ++ sep ++ sepJoin sep rest

/-- Concatenation of a list of strings. -/
def strJoin : List String → String
  | [] => ""
  | s :: rest => s ++ strJoin rest

/-- The single `AND UPPER(dim) IN (...)` clause appended for one filter item,
when the item is a dict holding both a `dim` and a list-valued `val`
(values upper-cased and joined); `none` for every other shape, which the
code skips silently. -/
def clauseOf : FilterItem → Option String
  | .dict (some dim) (some (.listVal vs)) =>
      some (" AND UPPER(" ++ dim ++ ") IN (\x27" ++
        sepJoin "\x27, \x27" (vs.map strUpper) ++ "\x27)")
  | _ => none

/-- The full SQL string: the base query with one clause appended per
well-shaped filter, in order. -/
def sqlQuery (filters : List FilterItem) : String :=
  filters.foldl (fun q f => match clauseOf f with | some c => q ++ c | none => q) baseQuery

/-! ### Color palettes and color resolution -/

/-- Python `dict.get k` on an association list kept in insertion order. -/
def dictGet {α : Type} (k : String) : List (String × α) → Option α
  | [] => none
  | (a, v) :: rest => if k = a then some v else dictGet k rest

/-- `color_maps["building_use"]`. -/
def building_use_colors : List (String × String) :=
  [("AMBULATORY", "#3b82f6"), ("ADMIN", "#10b981"), ("ACUTE", "#ef4444"),
   ("default", "#6b7280")]

/-- `color_maps["own_lease"]`. -/
def own_lease_colors : List (String × String) :=
  [("OWN", "#3b82f6"), ("LEASE", "#f59e0b"), ("OWN - CONDO", "#10b981"),
   ("default", "#6b7280")]

/-- `color_maps["building_type"]`. -/
def building_type_colors : List (String × String) :=
  [("MULTI STORY", "#3b82f6"), ("SINGLE STORY", "#10b981"), ("default", "#6b7280")]

/-- `color_maps["state"]`. -/
def state_colors : List (String × String) :=
  [("MA", "#3b82f6"), ("NH", "#10b981"), ("default", "#6b7280")]

/-- The `color_maps` dict: dimension name to palette. -/
def color_maps : List (String × List (String × String)) :=
  [("building_use", building_use_colors), ("own_lease", own_lease_colors),
   ("building_type", building_type_colors), ("state", state_colors)]

/-- `color_maps.get(color_by, color_maps["building_use"])`. -/
def colorsFor (color_by : String) : List (String × String) :=
  (dictGet color_by color_maps).getD building_use_colors

/-! ### Rows -/

/-- The `SQUARE_FEET` cell of one fetched row. `missing` models the key
being absent from the row entirely (so `row.get('SQUARE_FEET', 0)` yields
the default `0`), `null` a present null/NaN cell, `val n` a numeric cell. -/
inductive SqFtField where
  | missing
  | null
  | val (n : Nat)
  deriving DecidableEq

/-- `row.get('SQUARE_FEET', 0)`: the default `0` for a missing key, `none`
(NaN, failing `pd.notna`) for a null cell, the number otherwise. -/
def sqFtOrDefault : SqFtField → Option Nat
  | .missing => some 0
  | .null => none
  | .val n => some n

/-- One fetched row. The textual columns are the cell contents (the SELECT
guarantees the columns exist, so the `.get` defaults for them never fire);
latitude/longitude are non-null by the query predicate and carried as
integers since no claim computes with them; `SQUARE_FEET` keeps the
missing/null/value distinction that the formatting logic branches on. -/
structure Row where
  BUILDING_NAME : String
  BUILDING_TYPE : String
  BUILDING_USE : String
  CITY : String
  STATE : String
  FULL_ADDRESS : String
  LATITUDE : Int
  LONGITUDE : Int
  OWN_LEASE : String
  SQUARE_FEET : SqFtField
  YEAR_BUILT : Int
  deriving DecidableEq

/-- `str(row.get(color_by.upper(), ''))` for the textual columns; the
default `''` for any other name (no claim reads a numeric column here). -/
def rawValue (r : Row) (color_by : String) : String :=
  match strUpper color_by with
  | "BUILDING_NAME" => r.BUILDING_NAME
  | "BUILDING_TYPE" => r.BUILDING_TYPE
  | "BUILDING_USE" => r.BUILDING_USE
  | "CITY" => r.CITY
  | "STATE" => r.STATE
  | "FULL_ADDRESS" => r.FULL_ADDRESS
  | "OWN_LEASE" => r.OWN_LEASE
  | _ => ""

/-- Lines 132-133: upper-case the record's value for the chosen dimension,
look it up in the palette, falling back to the palette's `default` entry
and then to the literal `"#6b7280"`. -/
def markerColor (r : Row) (color_by : String) : String :=
  (dictGet (strUpper (rawValue r color_by)) (colorsFor color_by)).getD
    ((dictGet "default" (colorsFor color_by)).getD "#6b7280")

/-! ### Thousands formatting (`f"{x:,.0f}"` on an integral value) -/

/-- The decimal digit character for `d < 10`. -/
def digitChar (d : Nat) : Char := Char.ofNat (48 + d)

/-- Little-endian decimal digits of `n`, with explicit structural fuel. -/
def decDigitsAux : Nat → Nat → List Nat
  | 0, _ => []
  | _ + 1, 0 => []
  | fuel + 1, n + 1 => ((n + 1) % 10) :: decDigitsAux fuel ((n + 1) / 10)

/-- Little-endian decimal digits of `n` (empty for `0`). -/
def decDigits (n : Nat) : List Nat := decDigitsAux n n

/-- Split a list into chunks of three, from the front. -/
def chunk3 : List Char → List (List Char)
  | [] => []
  | [a] => [[a]]
  | [a, b] => [[a, b]]
  | a :: b :: c :: rest => [a, b, c] :: chunk3 rest

/-- Join character groups with `,` between them. -/
def commaJoin : List (List Char) → List Char
  | [] => []
  | [g] => g
  | g :: gs => g ++ ',' :: commaJoin gs

/-- `f"{n:,.0f}"` for a non-negative integral value: decimal digits grouped
in threes from the least-significant end, groups joined by commas. -/
def formatThousands (n : Nat) : String :=
  if n = 0 then "0"
  else
    String.mk (commaJoin
      (((chunk3 ((decDigits n).map digitChar)).map List.reverse).reverse))

/-- Lines 277-278: `f"{sq_ft:,.0f}" if pd.notna(sq_ft) else "N/A"` applied
to `row.get('SQUARE_FEET', 0)`. -/
def sqFtStr (f : SqFtField) : String :=
  match sqFtOrDefault f with
  | some n => formatThousands n
  | none => "N/A"

/-! ### Map points and series aggregation -/

/-- One entry of `map_points` (lines 135-147). -/
structure MapPoint where
  name : String
  lat : Int
  lon : Int
  color : String
  building_use : String
  building_type : String
  city : String
  state : String
  address : String
  own_lease : String
  square_feet : Option Nat
  deriving DecidableEq

/-- Lines 130-147: one map point per fetched row, with the marker color
resolved from the requested dimension. -/
def mapPoints (df : List Row) (color_by : String) : List MapPoint :=
  df.map fun r =>
    { name := r.BUILDING_NAME
      lat := r.LATITUDE
      lon := r.LONGITUDE
      color := markerColor r color_by
      building_use := r.BUILDING_USE
      building_type := r.BUILDING_TYPE
      city := r.CITY
      state := r.STATE
      address := r.FULL_ADDRESS
      own_lease := r.OWN_LEASE
      square_feet := sqFtOrDefault r.SQUARE_FEET }

/-- The per-point payload stored in a series' `data` list (lines 167-178). -/
structure SeriesPoint where
  x : Int
  y : Int
  z : Nat
  name : String
  city : String
  state : String
  building_type : String
  building_use : String
  own_lease : String
  square_feet : Option Nat
  deriving DecidableEq

/-- The dict appended to `series_by_color[use]['data']`. -/
def toSeriesPoint (p : MapPoint) : SeriesPoint :=
  { x := p.lon, y := p.lat, z := 10, name := p.name, city := p.city,
    state := p.state, building_type := p.building_type,
    building_use := p.building_use, own_lease := p.own_lease,
    square_feet := p.square_feet }

/-- One value of the `series_by_color` dict (lines 162-166). -/
structure Series where
  name : String
  color : String
  data : List SeriesPoint
  deriving DecidableEq

/-- One iteration of the loop at lines 158-178: the dict keyed by
`point['building_use']` in insertion order, so a point either extends the
series already keyed by its use or appends a fresh series (taking its
color from this first point). -/
def addToSeries : List Series → MapPoint → List Series
  | [], p => [{ name := p.building_use, color := p.color, data := [toSeriesPoint p] }]
  | s :: rest, p =>
      if s.name = p.building_use then
        { name := s.name, color := s.color, data := s.data ++ [toSeriesPoint p] } :: rest
      else
        s :: addToSeries rest p

/-- `series_by_color` after the whole loop, as its ordered value list
(`bubble_series = list(series_by_color.values())`). -/
def seriesByColor (pts : List MapPoint) : List Series :=
  pts.foldl addToSeries []

/-- One data entry of a `mappoint` Highcharts series (lines 195-205). -/
structure MapSeriesPoint where
  name : String
  lat : Int
  lon : Int
  city : String
  state : String
  building_type : String
  building_use : String
  own_lease : String
  square_feet : Option Nat
  deriving DecidableEq

/-- One `mappoint` series of the chart (lines 191-211); the constant
`type`/`marker` fields are fixed literals and carry no data. -/
structure MapSeries where
  name : String
  color : String
  data : List MapSeriesPoint
  deriving DecidableEq

/-- Lines 189-211: the `map_series_data` list built from `series_by_color`. -/
def mapSeriesData (sbc : List Series) : List MapSeries :=
  sbc.map fun s =>
    { name := s.name
      color := s.color
      data := s.data.map fun p =>
        { name := p.name, lat := p.y, lon := p.x, city := p.city,
          state := p.state, building_type := p.building_type,
          building_use := p.building_use, own_lease := p.own_lease,
          square_feet := p.square_feet } }

/-! ### Table rows -/

/-- One entry of `table_rows` (lines 279-287); `btype` carries the
`"type"` key. -/
structure TableRow where
  name : String
  city : String
  state : String
  btype : String
  use : String
  ownership : String
  sq_ft : String
  deriving DecidableEq

/-- Lines 275-287: one display row per fetched row, in fetch order. -/
def tableRows (df : List Row) : List TableRow :=
  df.map fun r =>
    { name := r.BUILDING_NAME, city := r.CITY, state := r.STATE,
      btype := r.BUILDING_TYPE, use := r.BUILDING_USE,
      ownership := r.OWN_LEASE, sq_ft := sqFtStr r.SQUARE_FEET }

/-! ### Summary (`value_counts` tally) -/

/-- Add one observation to a first-seen-ordered tally. -/
def bump : List (String × Nat) → String → List (String × Nat)
  | [], u => [(u, 1)]
  | (k, c) :: rest, u =>
      if k = u then (k, c + 1) :: rest else (k, c) :: bump rest u

/-- Tally of the values in first-seen order. -/
def tally (l : List String) : List (String × Nat) :=
  l.foldl bump []

/-- Insert into a list kept in descending count order, stably: the new
entry goes before the first strictly smaller count. -/
def insertDesc (x : String × Nat) : List (String × Nat) → List (String × Nat)
  | [] => [x]
  | y :: ys => if y.2 < x.2 then x :: y :: ys else y :: insertDesc x ys

/-- Stable insertion sort by descending count. -/
def sortDesc : List (String × Nat) → List (String × Nat)
  | [] => []
  | x :: xs => insertDesc x (sortDesc xs)

/-- `df['BUILDING_USE'].value_counts().to_dict()` as an ordered list:
counts per value, in descending-frequency order. -/
def valueCounts (l : List String) : List (String × Nat) :=
  sortDesc (tally l)

/-- Lines 417-421: the chat summary sentence. The `BUILDING_USE` column is
always present (it is in the SELECT list), so the breakdown is always
appended. -/
def summary (df : List Row) : String :=
  "Showing " ++ toString df.length ++ " facilities on the map. " ++
    "By use: " ++
      sepJoin ", "
        ((valueCounts (df.map fun r => r.BUILDING_USE)).map fun kc =>
          toString kc.2 ++ " " ++ kc.1) ++ "."

/-! ### The skill function -/

/-- The `SkillVisualization` payload. -/
structure SkillVisualization where
  title : String
  layout : String
  deriving DecidableEq

/-- The `SkillOutput` result object returned to the caller. -/
structure SkillOutput where
  final_prompt : String
  narrative : Option String
  visualizations : List SkillVisualization
  deriving DecidableEq

/-- Outcome of the fetch step (lines 75-84), as observed by the code: the
client call raises, the result reports failure (`success` false, with an
optional `error` attribute), the result has no usable `df` shape, or a
row list is obtained. The first three all funnel into the same `except`
branch. -/
inductive FetchOutcome where
  | raises
  | reportsFailure (err : Option String)
  | noResultShape
  | ok (df : List Row)
  deriving DecidableEq

/-- Whether the fetch step failed to produce rows. -/
def fetchFailed : FetchOutcome → Bool
  | .ok _ => false
  | _ => true

/-- Outcome of the external `wire_layout` call (lines 407-414): rendered
markup, or an exception with its message. -/
inductive RenderOutcome where
  | ok (html : String)
  | raises (msg : String)
  deriving DecidableEq

/-- The fixed result returned when the fetch step fails (lines 86-92). -/
def errorOutput : SkillOutput :=
  { final_prompt := "Failed to retrieve facility data."
    narrative := some "Error loading facility data."
    visualizations := [] }

/-- The fixed result returned when the fetch succeeds with zero rows
(lines 94-99). -/
def emptyOutput : SkillOutput :=
  { final_prompt := "No facilities found matching the criteria."
    narrative := some "No facility data available."
    visualizations := [] }

/-- The whole skill: the SQL built from the filters is consumed by the
external fetch, whose outcome (and the layout engine's outcome) are
passed in as oracles; everything after the fetch is the pure
transformation of lines 101-429. -/
def facility_map (other_filters : List FilterItem) (color_by_arg : Option String)
    (fetch : FetchOutcome) (render : RenderOutcome) : SkillOutput :=
  let color_by :=
    match color_by_arg with
    | none => "building_use"
    | some s => if s = "" then "building_use" else s
  let _sql := sqlQuery other_filters
  match fetch with
  | .raises => errorOutput
  | .reportsFailure _ => errorOutput
  | .noResultShape => errorOutput
  | .ok df =>
      if df.length = 0 then emptyOutput
      else
        let pts := mapPoints df color_by
        let _sbc := mapSeriesData (seriesByColor pts)
        let _trs := tableRows df
        let html :=
          match render with
          | .ok h => h
          | .raises e => "<div>Error rendering layout: " ++ e ++ "</div>"
        { final_prompt := summary df
          narrative := none
          visualizations := [{ title := "Facility Map", layout := html }] }

/-! ### Sample data for concrete witnesses -/

/-- A concrete row builder used by the witnesses. -/
def mkRow (use st : String) (sq : SqFtField) : Row :=
  { BUILDING_NAME := "B-" ++ use ++ "-" ++ st
    BUILDING_TYPE := "MULTI STORY"
    BUILDING_USE := use
    CITY := "BOSTON"
    STATE := st
    FULL_ADDRESS := "1 MAIN ST"
    LATITUDE := 42
    LONGITUDE := -71
    OWN_LEASE := "OWN"
    SQUARE_FEET := sq
    YEAR_BUILT := 1990 }

/-- Three concrete rows with building uses ACUTE, ACUTE, ADMIN. -/
def sampleDf : List Row :=
  [mkRow "ACUTE" "MA" (.val 12345), mkRow "ACUTE" "NH" (.val 200),
   mkRow "ADMIN" "MA" .null]



/-- The concrete ACUTE series produced from `sampleDf` with `color_by =
"state"`: colored from the first (MA) point even though the second (NH)
point resolves to a different color. -/
def acuteSeries : Series :=
  { name := "ACUTE"
    color := "#3b82f6"
    data :=
      [{ x := -71, y := 42, z := 10, name := "B-ACUTE-MA", city := "BOSTON",
         state := "MA", building_type := "MULTI STORY", building_use := "ACUTE",
         own_lease := "OWN", square_feet := some 12345 },
       { x := -71, y := 42, z := 10, name := "B-ACUTE-NH", city := "BOSTON",
         state := "NH", building_type := "MULTI STORY", building_use := "ACUTE",
         own_lease := "OWN", square_feet := some 200 }] }

/-! ### Loop invariants: first-seen order and the closed form of the series loop -/


/-- The set of values already seen, in first-encounter order (Python dict
key order for a dict built by conditional insertion). -/
def firstSeen (l : List String) : List String :=
  l.foldl (fun acc u => if u ∈ acc then acc else acc ++ [u]) []

/-- The series the loop ends up holding for use value `u`: labeled `u`,
colored from the first point with that use, containing the payloads of all
points with that use in order. -/
def seriesOfUse (pts : List MapPoint) (u : String) : Series :=
  { name := u
    color := match pts.find? (fun p => p.building_use == u) with
      | some p => p.color
      | none => ""
    data := (pts.filter (fun p => p.building_use == u)).map toSeriesPoint }

/-- Closed form of the aggregation loop. -/
def canonicalSeries (pts : List MapPoint) : List Series :=
  (firstSeen (pts.map fun p => p.building_use)).map (seriesOfUse pts)


/-! ### Query-builder lemmas -/

/-- Whether a filter item has the shape the code appends a clause for:
a dict with both keys present and a list value (of any length). -/
def isListFilter : FilterItem → Bool
  | .dict (some _) (some (.listVal _)) => true
  | _ => false

/-- Whether a filter item has a non-empty list value. -/
def hasNonEmptyListVal : FilterItem → Bool
  | .dict (some _) (some (.listVal (_ :: _))) => true
  | _ => false

theorem clauseOf_isSome (f : FilterItem) : (clauseOf f).isSome = isListFilter f := by
  cases f with
  | notDict => rfl
  | dict d v =>
    cases d with
    | none => cases v with
      | none => rfl
      | some fv => cases fv <;> rfl
    | some dim => cases v with
      | none => rfl
      | some fv => cases fv <;> rfl

theorem foldl_clauseOf (fs : List FilterItem) (q : String) :
    fs.foldl (fun q f => match clauseOf f with | some c => q ++ c | none => q) q =
      q ++ strJoin (fs.filterMap clauseOf) := by
  induction fs generalizing q with
  | nil => simp [strJoin]
  | cons f fs ih =>
    cases h : clauseOf f with
    | none => simp [List.filterMap_cons, h, ih]
    | some c =>
      simp [List.filterMap_cons, h, ih, strJoin, String.append_assoc]

theorem length_filterMap_clauseOf (fs : List FilterItem) :
    (fs.filterMap clauseOf).length = fs.countP isListFilter := by
  induction fs with
  | nil => rfl
  | cons f fs ih =>
    have hs := clauseOf_isSome f
    cases h : clauseOf f with
    | none =>
      rw [h] at hs
      simp [List.filterMap_cons, h, List.countP_cons, ← hs, ih]
    | some c =>
      rw [h] at hs
      simp [List.filterMap_cons, h, List.countP_cons, ← hs, ih]

/-! ### Color lemmas -/

theorem dictGet_mem_snd {α : Type} (k : String) (l : List (String × α)) (v : α)
    (h : dictGet k l = some v) : v ∈ l.map Prod.snd := by
  induction l with
  | nil => simp [dictGet] at h
  | cons kv rest ih =>
    obtain ⟨a, b⟩ := kv
    by_cases hk : k = a
    · simp [dictGet, hk] at h
      simp [h]
    · simp [dictGet, hk] at h
      simp [ih h]

theorem colorsFor_cases (cb : String) :
    colorsFor cb = building_use_colors ∨ colorsFor cb = own_lease_colors ∨
    colorsFor cb = building_type_colors ∨ colorsFor cb = state_colors := by
  by_cases h1 : cb = "building_use"
  · simp [colorsFor, color_maps, dictGet, h1]
  by_cases h2 : cb = "own_lease"
  · simp [colorsFor, color_maps, dictGet, h1, h2]
  by_cases h3 : cb = "building_type"
  · simp [colorsFor, color_maps, dictGet, h1, h2, h3]
  by_cases h4 : cb = "state"
  · simp [colorsFor, color_maps, dictGet, h1, h2, h3, h4]
  simp [colorsFor, color_maps, dictGet, h1, h2, h3, h4]

theorem colorsFor_default (cb : String) :
    dictGet "default" (colorsFor cb) = some "#6b7280" := by
  rcases colorsFor_cases cb with h | h | h | h <;> rw [h] <;> decide

/-- C4: color resolution is total: for every record and requested dimension,
the resolved marker color is one of the colors of the palette selected for
that dimension; an unknown dimension selects the building-use palette; and
when the record's (upper-cased) value has no palette entry the result is
the shared `default` color `#6b7280`. -/
theorem resolve_color_total (r : Row) (cb : String) :
    markerColor r cb ∈ (colorsFor cb).map Prod.snd ∧
    (dictGet cb color_maps = none → colorsFor cb = building_use_colors) ∧
    (dictGet (strUpper (rawValue r cb)) (colorsFor cb) = none →
      markerColor r cb = "#6b7280") := by
  refine ⟨?_, ?_, ?_⟩
  · unfold markerColor
    cases h : dictGet (strUpper (rawValue r cb)) (colorsFor cb) with
    | some c => simpa using dictGet_mem_snd _ _ _ h
    | none =>
      rw [colorsFor_default cb]
      simp only [h, Option.getD_none, Option.getD_some]
      rcases colorsFor_cases cb with hc | hc | hc | hc <;> rw [hc] <;> decide
  · intro h
    unfold colorsFor
    rw [h]
    rfl
  · intro h
    unfold markerColor
    rw [colorsFor_default cb]
    simp [h]

/-- C4 witness: a concrete record and an unknown dimension resolve to the
building-use palette's default color. -/
theorem resolve_color_total_witness :
    markerColor (mkRow "ACUTE" "MA" SqFtField.null) "bogus" ∈
      (colorsFor "bogus").map Prod.snd ∧
    colorsFor "bogus" = building_use_colors ∧
    markerColor (mkRow "ACUTE" "MA" SqFtField.null) "bogus" = "#6b7280" :=
  ⟨(resolve_color_total (mkRow "ACUTE" "MA" SqFtField.null) "bogus").1,
   (resolve_color_total (mkRow "ACUTE" "MA" SqFtField.null) "bogus").2.1 (by decide),
   (resolve_color_total (mkRow "ACUTE" "MA" SqFtField.null) "bogus").2.2 (by decide)⟩

/-- C2 (amended): the generated query is the base query followed by exactly
one upper-cased `UPPER(dim) IN (...)` clause per filter that is a dict with
a `dim` and a list `val` (the empty list included), in filter order;
filters missing `dim` or `val`, with a non-list `val`, or that are not
dicts contribute no clause and are skipped without any error path. -/
theorem sql_filter_clauses (fs : List FilterItem) :
    sqlQuery fs = baseQuery ++ strJoin (fs.filterMap clauseOf) ∧
    (fs.filterMap clauseOf).length = fs.countP isListFilter ∧
    (∀ dim vs, clauseOf (.dict (some dim) (some (.listVal vs))) =
      some (" AND UPPER(" ++ dim ++ ") IN (\x27" ++
        sepJoin "\x27, \x27" (vs.map strUpper) ++ "\x27)")) ∧
    (∀ f, isListFilter f = false → clauseOf f = none) := by
  refine ⟨foldl_clauseOf fs baseQuery, length_filterMap_clauseOf fs, fun dim vs => rfl, ?_⟩
  intro f h
  have hs := clauseOf_isSome f
  rw [h] at hs
  exact Option.not_isSome_iff_eq_none.1 (by simp [hs])

/-- C2 witness: a two-filter list (one well-shaped, one missing `val`)
produces exactly the one clause of the well-shaped filter. -/
theorem sql_filter_clauses_witness :
    sqlQuery [FilterItem.dict (some "STATE") (some (.listVal ["ma", "nh"])),
        FilterItem.dict (some "CITY") none] =
      baseQuery ++ strJoin ([FilterItem.dict (some "STATE") (some (.listVal ["ma", "nh"])),
        FilterItem.dict (some "CITY") none].filterMap clauseOf) ∧
    clauseOf (FilterItem.dict (some "CITY") none) = none :=
  ⟨(sql_filter_clauses [FilterItem.dict (some "STATE") (some (.listVal ["ma", "nh"])),
      FilterItem.dict (some "CITY") none]).1,
   (sql_filter_clauses [FilterItem.dict (some "STATE") (some (.listVal ["ma", "nh"])),
      FilterItem.dict (some "CITY") none]).2.2.2 _ (by decide)⟩

/-- C2 counterexample to the claim as stated: a filter whose `val` is the
empty list is none of the shapes the claim accounts for (its `val` IS a
list, just empty), yet the code still appends a clause for it — the query
gains `AND UPPER(STATE) IN ('')` although the filter list contains zero
filters with a non-empty list value. -/
theorem sql_empty_list_clause :
    [FilterItem.dict (some "STATE") (some (.listVal []))].countP hasNonEmptyListVal = 0 ∧
    sqlQuery [FilterItem.dict (some "STATE") (some (.listVal []))] =
      baseQuery ++ " AND UPPER(STATE) IN (\x27\x27)" := by
  constructor
  · decide
  · rfl

/-! ### Formatting lemmas -/

theorem decDigitsAux_lt : ∀ (fuel n : Nat), ∀ d ∈ decDigitsAux fuel n, d < 10 := by
  intro fuel
  induction fuel with
  | zero => intro n d hd; simp [decDigitsAux] at hd
  | succ fuel ih =>
    intro n d hd
    cases n with
    | zero => simp [decDigitsAux] at hd
    | succ m =>
      simp only [decDigitsAux, List.mem_cons] at hd
      rcases hd with rfl | hd
      · exact Nat.mod_lt _ (by norm_num)
      · exact ih _ d hd

theorem mem_chunk3 : ∀ (l : List Char), ∀ g ∈ chunk3 l, ∀ c ∈ g, c ∈ l
  | [] => by simp [chunk3]
  | [a] => by
      intro g hg c hc
      simp [chunk3] at hg
      subst hg
      simpa using hc
  | [a, b] => by
      intro g hg c hc
      simp [chunk3] at hg
      subst hg
      simpa using hc
  | a :: b :: e :: rest => by
      intro g hg c hc
      simp only [chunk3, List.mem_cons] at hg
      rcases hg with rfl | hg
      · simp only [List.mem_cons] at hc ⊢
        tauto
      · have := mem_chunk3 rest g hg c hc
        simp only [List.mem_cons] at this ⊢
        tauto

theorem mem_commaJoin : ∀ (gs : List (List Char)) (c : Char), c ∈ commaJoin gs →
    c = ',' ∨ ∃ g ∈ gs, c ∈ g
  | [] => by intro c h; simp [commaJoin] at h
  | [g] => by
      intro c h
      simp only [commaJoin] at h
      exact Or.inr ⟨g, by simp, h⟩
  | g :: g2 :: gs2 => by
      intro c h
      simp only [commaJoin, List.mem_append, List.mem_cons] at h
      rcases h with hg | rfl | hrest
      · exact Or.inr ⟨g, by simp, hg⟩
      · exact Or.inl rfl
      · rcases mem_commaJoin (g2 :: gs2) c hrest with hc | ⟨g3, hg3, hcg⟩
        · exact Or.inl hc
        · exact Or.inr ⟨g3, by simp [List.mem_cons] at hg3 ⊢; tauto, hcg⟩

theorem formatThousands_ne_na (n : Nat) : formatThousands n ≠ "N/A" := by
  unfold formatThousands
  by_cases h : n = 0
  · rw [if_pos h]; decide
  · rw [if_neg h]
    intro hc
    have hl : commaJoin (((chunk3 ((decDigits n).map digitChar)).map List.reverse).reverse) =
        ['N', '/', 'A'] := by
      simpa using congrArg String.data hc
    have hN : ('N' : Char) ∈
        commaJoin (((chunk3 ((decDigits n).map digitChar)).map List.reverse).reverse) := by
      rw [hl]; simp
    rcases mem_commaJoin _ _ hN with hcm | ⟨g, hg, hcg⟩
    · exact absurd hcm (by decide)
    · rw [List.mem_reverse] at hg
      rcases List.mem_map.1 hg with ⟨g0, hg0, rfl⟩
      rw [List.mem_reverse] at hcg
      have hmem : ('N' : Char) ∈ (decDigits n).map digitChar :=
        mem_chunk3 _ g0 hg0 'N' hcg
      rcases List.mem_map.1 hmem with ⟨d, hd, hdn⟩
      have hlt : d < 10 := decDigitsAux_lt n n d hd
      interval_cases d <;> exact absurd hdn (by decide)

/-- C6: the table's square-footage column: for every row set the `sq_ft`
field is the formatter applied to the fetched cell; a present numeric
value renders as a thousands-separated integer string (`12345` as
`"12,345"`), a null/NaN cell as the literal `"N/A"`. -/
theorem table_sqft_format :
    (∀ df : List Row, (tableRows df).map (fun t => t.sq_ft) =
      df.map fun r => sqFtStr r.SQUARE_FEET) ∧
    sqFtStr SqFtField.null = "N/A" ∧
    (∀ n, sqFtStr (SqFtField.val n) = formatThousands n) ∧
    formatThousands 12345 = "12,345" := by
  refine ⟨?_, rfl, fun n => rfl, by decide⟩
  intro df
  unfold tableRows
  rw [List.map_map]
  rfl

/-- C10: a row lacking the `SQUARE_FEET` key entirely gets the `.get`
default `0`: its table cell renders as `"0"` and its map point carries the
number `0`; the `"N/A"` marker appears exactly for a present null cell. -/
theorem sqft_missing_default (r : Row) (cb : String)
    (hm : r.SQUARE_FEET = SqFtField.missing) :
    (tableRows [r]).map (fun t => t.sq_ft) = ["0"] ∧
    (mapPoints [r] cb).map (fun p => p.square_feet) = [some 0] ∧
    (∀ f : SqFtField, sqFtStr f = "N/A" ↔ f = SqFtField.null) := by
  refine ⟨?_, ?_, ?_⟩
  · simp [tableRows, hm, sqFtStr, sqFtOrDefault, formatThousands]
  · simp [mapPoints, hm, sqFtOrDefault]
  · intro f
    cases f with
    | missing => simp [sqFtStr, sqFtOrDefault, formatThousands]
    | null => simp [sqFtStr, sqFtOrDefault]
    | val n =>
      simp only [sqFtStr, sqFtOrDefault]
      exact ⟨fun hna => absurd hna (formatThousands_ne_na n), fun hf => by cases hf⟩

/-- C10 witness: a concrete key-missing row yields `"0"` in the table and
`0` at the map point. -/
theorem sqft_missing_default_witness :
    (tableRows [mkRow "ACUTE" "MA" SqFtField.missing]).map (fun t => t.sq_ft) = ["0"] ∧
    (mapPoints [mkRow "ACUTE" "MA" SqFtField.missing] "building_use").map
      (fun p => p.square_feet) = [some 0] :=
  ⟨(sqft_missing_default (mkRow "ACUTE" "MA" SqFtField.missing) "building_use" rfl).1,
   (sqft_missing_default (mkRow "ACUTE" "MA" SqFtField.missing) "building_use" rfl).2.1⟩

/-! ### Tally and descending-sort lemmas -/

theorem bump_map_fst (acc : List (String × Nat)) (u : String) :
    (bump acc u).map Prod.fst =
      if u ∈ acc.map Prod.fst then acc.map Prod.fst else acc.map Prod.fst ++ [u] := by
  induction acc with
  | nil => simp [bump]
  | cons kc rest ih =>
    obtain ⟨k, c⟩ := kc
    by_cases hk : k = u
    · subst hk
      simp [bump]
    · simp only [bump, if_neg hk, List.map_cons, ih]
      by_cases hm : u ∈ rest.map Prod.fst
      · simp [hm, List.mem_cons, Ne.symm hk]
      · simp [hm, List.mem_cons, Ne.symm hk]

theorem bump_fst_nodup (acc : List (String × Nat)) (u : String)
    (h : (acc.map Prod.fst).Nodup) : ((bump acc u).map Prod.fst).Nodup := by
  rw [bump_map_fst]
  by_cases hm : u ∈ acc.map Prod.fst
  · rwa [if_pos hm]
  · rw [if_neg hm]
    simp [List.nodup_append, h, hm]

theorem bump_spec (acc : List (String × Nat)) (u : String)
    (hnd : (acc.map Prod.fst).Nodup) :
    ∀ kc ∈ bump acc u,
      (kc.1 = u ∧ ((u ∉ acc.map Prod.fst ∧ kc.2 = 1) ∨
        ((u, kc.2 - 1) ∈ acc ∧ 1 ≤ kc.2))) ∨
      (kc.1 ≠ u ∧ kc ∈ acc) := by
  induction acc with
  | nil =>
    intro kc hkc
    simp only [bump, List.mem_singleton] at hkc
    subst hkc
    exact Or.inl ⟨rfl, Or.inl ⟨by simp, rfl⟩⟩
  | cons kc0 rest ih =>
    obtain ⟨k, c⟩ := kc0
    rw [List.map_cons, List.nodup_cons] at hnd
    have hk_nin2 : k ∉ List.map Prod.fst rest := hnd.1
    have hnd2 : (List.map Prod.fst rest).Nodup := hnd.2
    intro kc hkc
    by_cases hk : k = u
    · rw [bump, if_pos hk] at hkc
      rcases List.mem_cons.1 hkc with hkc2 | hmem
      · subst hkc2
        refine Or.inl ⟨hk, Or.inr ⟨?_, by omega⟩⟩
        subst hk
        simp
      · refine Or.inr ⟨?_, List.mem_cons_of_mem _ hmem⟩
        intro h1
        apply hk_nin2
        have hin2 : kc.1 ∈ List.map Prod.fst rest := List.mem_map_of_mem Prod.fst hmem
        rwa [h1, ← hk] at hin2
    · rw [bump, if_neg hk] at hkc
      rcases List.mem_cons.1 hkc with hkc2 | hmem
      · subst hkc2
        exact Or.inr ⟨fun hc => hk hc, List.mem_cons_self _ _⟩
      · rcases ih hnd2 kc hmem with ⟨h1, h2⟩ | ⟨h1, h2⟩
        · refine Or.inl ⟨h1, ?_⟩
          rcases h2 with ⟨hnin, hv⟩ | ⟨hin, hv⟩
          · refine Or.inl ⟨?_, hv⟩
            simp only [List.map_cons, List.mem_cons]
            rintro (rfl | hc2)
            · exact hk rfl
            · exact hnin hc2
          · exact Or.inr ⟨List.mem_cons_of_mem _ hin, hv⟩
        · exact Or.inr ⟨h1, List.mem_cons_of_mem _ h2⟩

theorem tally_spec (l : List String) :
    (∀ kc ∈ tally l, kc.2 = l.count kc.1) ∧
    (∀ u, u ∈ (tally l).map Prod.fst ↔ u ∈ l) ∧
    ((tally l).map Prod.fst).Nodup := by
  induction l using List.reverseRecOn with
  | nil => simp [tally]
  | append_singleton l u ih =>
    obtain ⟨ihc, ihm, ihn⟩ := ih
    have htu : tally (l ++ [u]) = bump (tally l) u := by
      unfold tally
      rw [List.foldl_append]
      rfl
    refine ⟨?_, ?_, ?_⟩
    · intro kc hkc
      rw [htu] at hkc
      have hone : List.count u [u] = 1 := by simp
      rcases bump_spec _ _ ihn kc hkc with ⟨h1, h2⟩ | ⟨h1, h2⟩
      · rcases h2 with ⟨hnin, hv⟩ | ⟨hin, hv⟩
        · have hul : u ∉ l := fun hc => hnin ((ihm u).2 hc)
          rw [h1, hv, List.count_append, List.count_eq_zero.2 hul, hone]
        · have hcount : kc.2 - 1 = List.count u l := ihc _ hin
          rw [h1, List.count_append, hone]
          omega
      · have hcount := ihc kc h2
        have hnu : kc.1 ∉ [u] := by simpa using h1
        rw [List.count_append, List.count_eq_zero.2 hnu]
        omega
    · intro v
      rw [htu, bump_map_fst]
      by_cases hm : u ∈ (tally l).map Prod.fst
      · have hul : u ∈ l := (ihm u).1 hm
        rw [if_pos hm]
        rw [ihm v]
        simp only [List.mem_append, List.mem_singleton]
        exact ⟨Or.inl, fun h => h.elim id (fun hv => hv ▸ hul)⟩
      · rw [if_neg hm]
        simp [ihm, List.mem_append]
    · rw [htu]
      exact bump_fst_nodup _ _ ihn

theorem mem_insertDesc (x : String × Nat) (l : List (String × Nat)) (kc : String × Nat) :
    kc ∈ insertDesc x l ↔ kc = x ∨ kc ∈ l := by
  induction l with
  | nil => simp [insertDesc]
  | cons y ys ih =>
    by_cases h : y.2 < x.2
    · simp only [insertDesc, if_pos h, List.mem_cons]
    · simp only [insertDesc, if_neg h, List.mem_cons, ih]
      tauto

theorem pairwise_insertDesc (x : String × Nat) (l : List (String × Nat))
    (h : l.Pairwise (fun a b => b.2 ≤ a.2)) :
    (insertDesc x l).Pairwise (fun a b => b.2 ≤ a.2) := by
  induction l with
  | nil => simp [insertDesc]
  | cons y ys ih =>
    rcases List.pairwise_cons.1 h with ⟨hy, hys⟩
    by_cases hlt : y.2 < x.2
    · simp only [insertDesc, if_pos hlt]
      refine List.pairwise_cons.2 ⟨?_, h⟩
      intro z hz
      rcases List.mem_cons.1 hz with rfl | hz2
      · omega
      · exact le_trans (hy z hz2) (le_of_lt hlt)
    · simp only [insertDesc, if_neg hlt]
      refine List.pairwise_cons.2 ⟨?_, ih hys⟩
      intro z hz
      rcases (mem_insertDesc x ys z).1 hz with rfl | hz2
      · omega
      · exact hy z hz2

theorem pairwise_sortDesc (l : List (String × Nat)) :
    (sortDesc l).Pairwise (fun a b => b.2 ≤ a.2) := by
  induction l with
  | nil => simp [sortDesc]
  | cons x xs ih => exact pairwise_insertDesc x _ ih

theorem mem_sortDesc (l : List (String × Nat)) (kc : String × Nat) :
    kc ∈ sortDesc l ↔ kc ∈ l := by
  induction l with
  | nil => simp [sortDesc]
  | cons x xs ih => simp [sortDesc, mem_insertDesc, ih, List.mem_cons]

/-- C5: for a non-empty row set the summary is the sentence
`"Showing N facilities on the map. By use: <count use>, ..."`, where the
breakdown entries are sorted by descending frequency, each entry's count
is the number of rows with that building use, and the listed uses are
exactly the distinct `BUILDING_USE` values. -/
theorem summary_spec (df : List Row) (_hne : df ≠ []) :
    summary df =
      "Showing " ++ toString df.length ++ " facilities on the map. " ++ "By use: " ++
        sepJoin ", "
          ((valueCounts (df.map fun r => r.BUILDING_USE)).map fun kc =>
            toString kc.2 ++ " " ++ kc.1) ++ "." ∧
    (valueCounts (df.map fun r => r.BUILDING_USE)).Pairwise (fun a b => b.2 ≤ a.2) ∧
    (∀ kc ∈ valueCounts (df.map fun r => r.BUILDING_USE),
      kc.2 = (df.map fun r => r.BUILDING_USE).count kc.1) ∧
    (∀ u, u ∈ (valueCounts (df.map fun r => r.BUILDING_USE)).map Prod.fst ↔
      u ∈ df.map fun r => r.BUILDING_USE) := by
  obtain ⟨htc, htm, _⟩ := tally_spec (df.map fun r => r.BUILDING_USE)
  refine ⟨rfl, pairwise_sortDesc _, ?_, ?_⟩
  · intro kc hkc
    exact htc kc ((mem_sortDesc _ kc).1 hkc)
  · intro u
    rw [← htm u]
    constructor
    · intro hu
      rcases List.mem_map.1 hu with ⟨kc, hkc, rfl⟩
      exact List.mem_map_of_mem _ ((mem_sortDesc _ kc).1 hkc)
    · intro hu
      rcases List.mem_map.1 hu with ⟨kc, hkc, rfl⟩
      exact List.mem_map_of_mem _ ((mem_sortDesc _ kc).2 hkc)

/-- C5 witness: the scenario rows with uses ACUTE, ACUTE, ADMIN give the
frequency-ordered summary listing ACUTE (2) before ADMIN (1). -/
theorem summary_spec_witness :
    summary sampleDf = "Showing 3 facilities on the map. By use: 2 ACUTE, 1 ADMIN." ∧
    (valueCounts (sampleDf.map fun r => r.BUILDING_USE)).Pairwise
      (fun a b => b.2 ≤ a.2) :=
  ⟨by decide, (summary_spec sampleDf (by decide)).2.1⟩

/-! ### Series aggregation lemmas -/

theorem mem_firstSeen_aux (l : List String) (acc : List String) (x : String) :
    x ∈ l.foldl (fun acc u => if u ∈ acc then acc else acc ++ [u]) acc ↔
      x ∈ acc ∨ x ∈ l := by
  induction l generalizing acc with
  | nil => simp
  | cons u l ih =>
    simp only [List.foldl_cons]
    by_cases h : u ∈ acc
    · rw [if_pos h, ih]
      simp only [List.mem_cons]
      constructor
      · rintro (hx | hx)
        · exact Or.inl hx
        · exact Or.inr (Or.inr hx)
      · rintro (hx | rfl | hx)
        · exact Or.inl hx
        · exact Or.inl h
        · exact Or.inr hx
    · rw [if_neg h, ih]
      simp only [List.mem_append, List.mem_singleton, List.mem_cons]
      tauto

theorem mem_firstSeen (l : List String) (x : String) :
    x ∈ firstSeen l ↔ x ∈ l := by
  unfold firstSeen
  rw [mem_firstSeen_aux]
  simp

theorem nodup_firstSeen_aux (l : List String) (acc : List String) (h : acc.Nodup) :
    (l.foldl (fun acc u => if u ∈ acc then acc else acc ++ [u]) acc).Nodup := by
  induction l generalizing acc with
  | nil => exact h
  | cons u l ih =>
    simp only [List.foldl_cons]
    by_cases hm : u ∈ acc
    · rw [if_pos hm]
      exact ih _ h
    · rw [if_neg hm]
      exact ih _ (by simp [List.nodup_append, h, hm])

theorem nodup_firstSeen (l : List String) : (firstSeen l).Nodup :=
  nodup_firstSeen_aux l [] (by simp)

theorem firstSeen_append (l : List String) (u : String) :
    firstSeen (l ++ [u]) = if u ∈ l then firstSeen l else firstSeen l ++ [u] := by
  unfold firstSeen
  rw [List.foldl_append]
  simp only [List.foldl_cons, List.foldl_nil]
  by_cases h : u ∈ l
  · rw [if_pos ((mem_firstSeen_aux l [] u).2 (Or.inr h)), if_pos h]
  · rw [if_neg (fun hc => h (((mem_firstSeen_aux l [] u).1 hc).resolve_left
      (by simp))), if_neg h]

theorem find?_append_isSome {α : Type} (p : α → Bool) (pts : List α) (q : α)
    (h : (pts.find? p).isSome) : (pts ++ [q]).find? p = pts.find? p := by
  induction pts with
  | nil => simp at h
  | cons a rest ih =>
    by_cases ha : p a
    · rw [List.cons_append, List.find?_cons_of_pos _ ha, List.find?_cons_of_pos _ ha]
    · rw [List.find?_cons_of_neg _ ha] at h
      rw [List.cons_append, List.find?_cons_of_neg _ ha, List.find?_cons_of_neg _ ha]
      exact ih h

theorem find?_append_none {α : Type} (p : α → Bool) (pts : List α) (q : α)
    (h : pts.find? p = none) : (pts ++ [q]).find? p = [q].find? p := by
  induction pts with
  | nil => simp
  | cons a rest ih =>
    by_cases ha : p a
    · rw [List.find?_cons_of_pos _ ha] at h
      cases h
    · rw [List.find?_cons_of_neg _ ha] at h
      rw [List.cons_append, List.find?_cons_of_neg _ ha]
      exact ih h

theorem find?_isSome_of_mem_use (pts : List MapPoint) (u : String)
    (h : u ∈ pts.map fun p => p.building_use) :
    (pts.find? fun p => p.building_use == u).isSome := by
  rcases List.mem_map.1 h with ⟨p, hp, hpu⟩
  exact List.find?_isSome.2 ⟨p, hp, by simp [hpu]⟩

theorem seriesOfUse_append_of_ne (pts : List MapPoint) (q : MapPoint) (u : String)
    (hne : q.building_use ≠ u)
    (hs : (pts.find? fun p => p.building_use == u).isSome) :
    seriesOfUse (pts ++ [q]) u = seriesOfUse pts u := by
  unfold seriesOfUse
  rw [find?_append_isSome _ _ _ hs, List.filter_append]
  have hq : ((fun p => p.building_use == u) q) = false := by simp [hne]
  simp [List.filter, hq]

theorem seriesOfUse_append_self_isSome (pts : List MapPoint) (q : MapPoint) (u : String)
    (hu : q.building_use = u)
    (hs : (pts.find? fun p => p.building_use == u).isSome) :
    seriesOfUse (pts ++ [q]) u =
      { name := u, color := (seriesOfUse pts u).color,
        data := (seriesOfUse pts u).data ++ [toSeriesPoint q] } := by
  unfold seriesOfUse
  rw [find?_append_isSome _ _ _ hs, List.filter_append]
  have hq : ((fun p => p.building_use == u) q) = true := by simp [hu]
  simp [List.filter, hq]

theorem seriesOfUse_append_self_none (pts : List MapPoint) (q : MapPoint) (u : String)
    (hu : q.building_use = u)
    (hn : (pts.find? fun p => p.building_use == u) = none) :
    seriesOfUse (pts ++ [q]) u =
      { name := u, color := q.color, data := [toSeriesPoint q] } := by
  unfold seriesOfUse
  rw [find?_append_none _ _ _ hn, List.filter_append]
  have hfq : pts.filter (fun p => p.building_use == u) = [] :=
    List.filter_eq_nil_iff.2 (List.find?_eq_none.1 hn)
  have hq : ((fun p => p.building_use == u) q) = true := by simp [hu]
  rw [hfq]
  simp [List.find?, List.filter, hq]

theorem addToSeries_map_seriesOfUse (pts : List MapPoint) (q : MapPoint)
    (us : List String)
    (hmem : ∀ u ∈ us, (pts.find? fun p => p.building_use == u).isSome)
    (hnd : us.Nodup)
    (hout : q.building_use ∉ us →
      (pts.find? fun p => p.building_use == q.building_use) = none) :
    addToSeries (us.map (seriesOfUse pts)) q =
      (if q.building_use ∈ us then us else us ++ [q.building_use]).map
        (seriesOfUse (pts ++ [q])) := by
  induction us with
  | nil =>
    rw [if_neg (List.not_mem_nil _)]
    have hn := hout (List.not_mem_nil _)
    simp only [List.map_nil, addToSeries, List.nil_append, List.map_cons, List.map_nil]
    rw [seriesOfUse_append_self_none pts q q.building_use rfl hn]
  | cons u us ih =>
    have hu_nin : u ∉ us := (List.nodup_cons.1 hnd).1
    have hnd2 : us.Nodup := (List.nodup_cons.1 hnd).2
    simp only [List.map_cons, addToSeries]
    by_cases hq : u = q.building_use
    · rw [if_pos (show (seriesOfUse pts u).name = q.building_use from hq)]
      rw [if_pos (show q.building_use ∈ u :: us from hq ▸ List.mem_cons_self u us)]
      simp only [List.map_cons]
      have hhead := seriesOfUse_append_self_isSome pts q u hq.symm
        (hmem u (List.mem_cons_self u us))
      congr 1
      · rw [hhead]
        rfl
      · refine List.map_congr_left ?_
        intro v hv
        refine (seriesOfUse_append_of_ne pts q v ?_ (hmem v (List.mem_cons_of_mem _ hv))).symm
        intro hc
        have huv : u = v := hq.trans hc
        exact hu_nin (huv ▸ hv)
    · rw [if_neg (show ¬(seriesOfUse pts u).name = q.building_use from hq)]
      have hrec := ih (fun v hv => hmem v (List.mem_cons_of_mem _ hv)) hnd2
        (fun hnin => hout (fun hc =>
          (List.mem_cons.1 hc).elim (fun hc2 => hq hc2.symm) hnin))
      rw [hrec]
      by_cases hin : q.building_use ∈ us
      · rw [if_pos hin, if_pos (List.mem_cons_of_mem _ hin)]
        simp only [List.map_cons]
        congr 1
        exact (seriesOfUse_append_of_ne pts q u (fun hc => hq hc.symm)
          (hmem u (List.mem_cons_self u us))).symm
      · rw [if_neg hin,
          if_neg (fun hc => (List.mem_cons.1 hc).elim (fun hc2 => hq hc2.symm) hin)]
        rw [List.cons_append, List.map_cons]
        congr 1
        exact (seriesOfUse_append_of_ne pts q u (fun hc => hq hc.symm)
          (hmem u (List.mem_cons_self u us))).symm

theorem seriesByColor_eq_canonical (pts : List MapPoint) :
    seriesByColor pts = canonicalSeries pts := by
  induction pts using List.reverseRecOn with
  | nil => rfl
  | append_singleton pts q ih =>
    have h1 : seriesByColor (pts ++ [q]) = addToSeries (seriesByColor pts) q := by
      unfold seriesByColor
      rw [List.foldl_append]
      rfl
    rw [h1, ih]
    unfold canonicalSeries
    rw [addToSeries_map_seriesOfUse pts q (firstSeen (pts.map fun p => p.building_use))
      (fun u hu => find?_isSome_of_mem_use pts u ((mem_firstSeen _ u).1 hu))
      (nodup_firstSeen _)
      (fun hnin => List.find?_eq_none.2 (fun x hx hpx => hnin ((mem_firstSeen _ _).2
        (by rw [← show x.building_use = q.building_use from by simpa using hpx];
            exact List.mem_map_of_mem _ hx))))]
    congr 1
    rw [List.map_append, show (List.map (fun p => p.building_use) [q]) =
      [q.building_use] from rfl, firstSeen_append]
    by_cases hm : q.building_use ∈ pts.map fun p => p.building_use
    · rw [if_pos hm, if_pos ((mem_firstSeen _ _).2 hm)]
    · rw [if_neg hm, if_neg (fun hc => hm ((mem_firstSeen _ _).1 hc))]

theorem mapPoints_use (df : List Row) (cb : String) :
    (mapPoints df cb).map (fun p => p.building_use) = df.map fun r => r.BUILDING_USE := by
  unfold mapPoints
  rw [List.map_map]
  rfl

theorem seriesByColor_names (pts : List MapPoint) :
    (seriesByColor pts).map Series.name = firstSeen (pts.map fun p => p.building_use) := by
  rw [seriesByColor_eq_canonical]
  unfold canonicalSeries
  rw [List.map_map]
  have hcomp : Series.name ∘ seriesOfUse pts = id := rfl
  rw [hcomp, List.map_id]

theorem series_partition_pts (pts : List MapPoint) :
    (seriesByColor pts).length = (pts.map fun p => p.building_use).toFinset.card ∧
    (seriesByColor pts).map Series.name = firstSeen (pts.map fun p => p.building_use) ∧
    (∀ s ∈ seriesByColor pts,
      s.data = (pts.filter fun p => p.building_use == s.name).map toSeriesPoint) ∧
    (∀ p ∈ pts, ∃! s, s ∈ seriesByColor pts ∧ s.name = p.building_use ∧
      toSeriesPoint p ∈ s.data) := by
  refine ⟨?_, seriesByColor_names pts, ?_, ?_⟩
  · rw [seriesByColor_eq_canonical]
    unfold canonicalSeries
    rw [List.length_map]
    have h1 : (firstSeen (pts.map fun p => p.building_use)).toFinset =
        (pts.map fun p => p.building_use).toFinset := by
      apply Finset.ext
      intro x
      simp [List.mem_toFinset, mem_firstSeen]
    rw [← h1, List.toFinset_card_of_nodup (nodup_firstSeen _)]
  · intro s hs
    rw [seriesByColor_eq_canonical] at hs
    rcases List.mem_map.1 hs with ⟨u, hu, rfl⟩
    rfl
  · intro p hp
    have hpu : p.building_use ∈ pts.map fun q => q.building_use :=
      List.mem_map_of_mem _ hp
    refine ⟨seriesOfUse pts p.building_use, ⟨?_, rfl, ?_⟩, ?_⟩
    · rw [seriesByColor_eq_canonical]
      exact List.mem_map_of_mem _ ((mem_firstSeen _ _).2 hpu)
    · exact List.mem_map_of_mem _ (List.mem_filter.2 ⟨hp, by simp [seriesOfUse]⟩)
    · rintro s ⟨hs, hname, _⟩
      rw [seriesByColor_eq_canonical] at hs
      rcases List.mem_map.1 hs with ⟨u, hu, rfl⟩
      have hupu : u = p.building_use := hname
      rw [hupu]

/-- C1: for every fetched row set and every requested dimension, the
aggregation partitions the points by building use: the series count is the
number of distinct `BUILDING_USE` values, the series labels are the
building-use values in first-seen order (independent of `color_by`), each
series holds exactly the points with its label, and every point lies in
exactly one series — the one labeled with its building use. -/
theorem series_partition (df : List Row) (cb : String) :
    (seriesByColor (mapPoints df cb)).length =
      (df.map fun r => r.BUILDING_USE).toFinset.card ∧
    (seriesByColor (mapPoints df cb)).map Series.name =
      firstSeen (df.map fun r => r.BUILDING_USE) ∧
    (∀ s ∈ seriesByColor (mapPoints df cb),
      s.data = ((mapPoints df cb).filter fun p => p.building_use == s.name).map
        toSeriesPoint) ∧
    (∀ p ∈ mapPoints df cb, ∃! s, s ∈ seriesByColor (mapPoints df cb) ∧
      s.name = p.building_use ∧ toSeriesPoint p ∈ s.data) := by
  have h := series_partition_pts (mapPoints df cb)
  rwa [mapPoints_use] at h

/-- C1 witness: the scenario rows (uses ACUTE, ACUTE, ADMIN) give exactly
as many series as distinct uses. -/
theorem series_partition_witness :
    (seriesByColor (mapPoints sampleDf "state")).length =
      (sampleDf.map fun r => r.BUILDING_USE).toFinset.card ∧
    (seriesByColor (mapPoints sampleDf "state")).length = 2 :=
  ⟨(series_partition sampleDf "state").1, by decide⟩

/-- C9: every aggregated series takes its color from the first point
encountered with its building-use value, while its data holds all points
with that use — so later points whose individually resolved color differs
are still added without changing the series color. -/
theorem series_color_first (df : List Row) (cb : String) :
    ∀ s ∈ seriesByColor (mapPoints df cb),
      ∃ p, ((mapPoints df cb).find? fun q => q.building_use == s.name) = some p ∧
        s.color = p.color ∧
        s.data = ((mapPoints df cb).filter fun q => q.building_use == s.name).map
          toSeriesPoint := by
  intro s hs
  rw [seriesByColor_eq_canonical] at hs
  rcases List.mem_map.1 hs with ⟨u, hu, rfl⟩
  have husome : ((mapPoints df cb).find? fun q => q.building_use == u).isSome :=
    find?_isSome_of_mem_use _ u ((mem_firstSeen _ u).1 hu)
  rcases Option.isSome_iff_exists.1 husome with ⟨p, hp⟩
  refine ⟨p, hp, ?_, rfl⟩
  show (seriesOfUse (mapPoints df cb) u).color = p.color
  unfold seriesOfUse
  rw [hp]

/-- C9 witness: with `color_by = "state"`, the concrete ACUTE series keeps
the MA point's color `#3b82f6` although its NH point resolves to
`#10b981`, and both points are in its data. -/
theorem series_color_first_witness :
    (∃ p, ((mapPoints sampleDf "state").find? fun q =>
        q.building_use == acuteSeries.name) = some p ∧
      acuteSeries.color = p.color ∧
      acuteSeries.data = ((mapPoints sampleDf "state").filter fun q =>
        q.building_use == acuteSeries.name).map toSeriesPoint) ∧
    markerColor (mkRow "ACUTE" "NH" (SqFtField.val 200)) "state" = "#10b981" ∧
    acuteSeries.color = "#3b82f6" :=
  ⟨series_color_first sampleDf "state" acuteSeries (by decide), by decide, rfl⟩

/-! ### Top-level skill theorems -/

/-- C3: the skill absorbs every failure of the fetch step: whatever the
filters, dimension and render outcome, a fetch that raises, reports
failure, or yields no usable result shape produces exactly the fixed
failure output with zero visualizations; and on every input the returned
object is well-formed, carrying at most one visualization. -/
theorem never_propagates (fs : List FilterItem) (cb : Option String)
    (fetch : FetchOutcome) (render : RenderOutcome) :
    (fetchFailed fetch = true → facility_map fs cb fetch render = errorOutput) ∧
    (facility_map fs cb fetch render).visualizations.length ≤ 1 := by
  cases fetch with
  | raises => exact ⟨fun _ => rfl, by simp [facility_map, errorOutput]⟩
  | reportsFailure err => exact ⟨fun _ => rfl, by simp [facility_map, errorOutput]⟩
  | noResultShape => exact ⟨fun _ => rfl, by simp [facility_map, errorOutput]⟩
  | ok df =>
    refine ⟨fun h => by simp [fetchFailed] at h, ?_⟩
    by_cases hd : df.length = 0 <;> cases render <;>
      simp [facility_map, hd, emptyOutput]

/-- C3 witness: a raising fetch yields the fixed failure output. -/
theorem never_propagates_witness :
    facility_map [] none FetchOutcome.raises (RenderOutcome.ok "") = errorOutput ∧
    (facility_map [] none FetchOutcome.raises (RenderOutcome.ok "")).visualizations.length ≤ 1 :=
  ⟨(never_propagates [] none FetchOutcome.raises (RenderOutcome.ok "")).1 rfl,
   (never_propagates [] none FetchOutcome.raises (RenderOutcome.ok "")).2⟩

/-- C7: if the layout engine raises, the exception is caught: exactly one
visualization is still returned with its content replaced by the inline
error notice, and the summary is the same one the success path computes
from the fetched rows. -/
theorem render_failure_recovered (fs : List FilterItem) (cb : Option String)
    (df : List Row) (msg html : String) (hne : df ≠ []) :
    facility_map fs cb (FetchOutcome.ok df) (RenderOutcome.raises msg) =
      SkillOutput.mk (summary df) none
        [SkillVisualization.mk "Facility Map"
          ("<div>Error rendering layout: " ++ msg ++ "</div>")] ∧
    (facility_map fs cb (FetchOutcome.ok df) (RenderOutcome.raises msg)).final_prompt =
      (facility_map fs cb (FetchOutcome.ok df) (RenderOutcome.ok html)).final_prompt := by
  have hd : ¬ df.length = 0 := by simpa [List.length_eq_zero] using hne
  constructor
  · simp [facility_map, hd]
  · simp [facility_map, hd]

/-- C7 witness: the scenario rows with a raising renderer still return one
visualization with the inline error and the normal summary. -/
theorem render_failure_recovered_witness :
    facility_map [] none (FetchOutcome.ok sampleDf) (RenderOutcome.raises "boom") =
      SkillOutput.mk (summary sampleDf) none
        [SkillVisualization.mk "Facility Map"
          ("<div>Error rendering layout: " ++ "boom" ++ "</div>")] ∧
    (facility_map [] none (FetchOutcome.ok sampleDf) (RenderOutcome.raises "boom")).final_prompt =
      (facility_map [] none (FetchOutcome.ok sampleDf) (RenderOutcome.ok "markup")).final_prompt :=
  render_failure_recovered [] none sampleDf "boom" "markup" (by decide)

/-- C8: the post-fetch transformation is deterministic: identical fetched
rows and identical `color_by` give identical chart series, identical table
rows and identical summary text. -/
theorem pipeline_deterministic (df1 df2 : List Row) (cb1 cb2 : String)
    (h1 : df1 = df2) (h2 : cb1 = cb2) :
    mapSeriesData (seriesByColor (mapPoints df1 cb1)) =
      mapSeriesData (seriesByColor (mapPoints df2 cb2)) ∧
    tableRows df1 = tableRows df2 ∧ summary df1 = summary df2 := by
  subst h1
  subst h2
  exact ⟨rfl, rfl, rfl⟩

/-- C8 witness: the determinism theorem at the concrete scenario input. -/
theorem pipeline_deterministic_witness :
    mapSeriesData (seriesByColor (mapPoints sampleDf "state")) =
      mapSeriesData (seriesByColor (mapPoints sampleDf "state")) ∧
    tableRows sampleDf = tableRows sampleDf ∧ summary sampleDf = summary sampleDf :=
  pipeline_deterministic sampleDf sampleDf "state" "state" rfl rfl

end FacilityMap
